import Mathlib

/-!
Verification of the mutmut/muckup mutation-testing engine.

The definitions below are shallow embeddings of the Python source:

* `muckup/mutators.py` — `MutantTestStatus`, `Mutant` (equality, the
  `mutation_original_pair` property, `apply`/`revert`), the mutation rule
  table and `Mutator.mutate_node`.
* `muckup/runner.py` — `MutationTestRunner.test_mutant`, `run_test`,
  `run_mutation_tests` and `compute_return_code`.
* `mutmut/__main__.py` — `run_mutation`, `tests_pass`, `compute_exit_code`.
* `mutmut/cache.py` — `get_cached_mutation_status`.

Wall-clock durations (Python floats) are modelled as rationals; test
statuses (string constants in `mutmut`, an `Enum` in `muckup`) are one
shared inductive type; the file system touched by `apply`/`revert` is an
explicit map from file names to file contents.
-/

namespace Muckup

/-- Test statuses a `Mutant` can have (`muckup/mutators.py`,
`MutantTestStatus`; the same five values are the string constants used by
`mutmut`). -/
inductive MutantTestStatus where
  | UNTESTED
  | OK_KILLED
  | OK_SUSPICIOUS
  | BAD_TIMEOUT
  | BAD_SURVIVED
deriving DecidableEq, Repr

open MutantTestStatus

/-- The `Mutant` record of `muckup/mutators.py` (its `__init__` fields plus
the `applied` flag set in the constructor). -/
structure Mutant where
  filename : String
  source : String
  mutated_source : String
  status : MutantTestStatus
  applied : Bool
deriving DecidableEq, Repr

/-- `Mutant.__eq__` (`muckup/mutators.py` lines 75-77): compares the
quadruple `(filename, source, mutated_source, status)`. -/
def Mutant.eqPy (m other : Mutant) : Bool :=
  (m.filename, m.source, m.mutated_source, m.status)
    == (other.filename, other.source, other.mutated_source, other.status)

/-! ### File-system model and `Mutant.apply` / `Mutant.revert`

The on-disk state is a map from file names to `Option` contents
(`none` = the file does not exist). `open(path, 'w').write(c)` is
`FSet`; `shutil.move(src, dst)` renames, failing when `src` is absent. -/

/-- The file system: contents of each path, `none` when absent. -/
def FileSystem : Type := String → Option String

/-- Write `content` at `path` (Python `open(path, 'w').write(content)`). -/
def FSet (fs : FileSystem) (path content : String) : FileSystem :=
  fun p => if p = path then some content else fs p

/-- Remove the file at `path`. -/
def FDel (fs : FileSystem) (path : String) : FileSystem :=
  fun p => if p = path then none else fs p

/-- `Mutant.apply` (`muckup/mutators.py` lines 87-98): raises when the
mutant is already applied — the check precedes every write, so in the
error case the returned mutant and file system are the inputs untouched.
Otherwise writes the unmutated source to `filename + '.bak'`, overwrites
`filename` with the mutated source, and sets `applied`. The first
component is the raised exception message, if any. -/
def Mutant.applyFs (m : Mutant) (fs : FileSystem) :
    Option String × Mutant × FileSystem :=
  if m.applied then
    (some "Mutant is applied. Call `Mutant.revert` before calling `Mutant.apply` again",
      m, fs)
  else
    (none, { m with applied := true },
      FSet (FSet fs (m.filename ++ ".bak") m.source) m.filename m.mutated_source)

/-- `Mutant.revert` (`muckup/mutators.py` lines 100-108): raises when the
mutant is not applied, before touching the file system; otherwise
`shutil.move` puts the content of `filename + '.bak'` at `filename` and
removes the backup (raising `FileNotFoundError`, with nothing changed,
when the backup is absent), and then `applied` is cleared. -/
def Mutant.revertFs (m : Mutant) (fs : FileSystem) :
    Option String × Mutant × FileSystem :=
  if m.applied then
    match fs (m.filename ++ ".bak") with
    | none => (some "FileNotFoundError", m, fs)
    | some c => (none, { m with applied := false },
        FDel (FSet fs m.filename c) (m.filename ++ ".bak"))
  else
    (some "Mutant is not applied. Call `Mutant.apply` before calling `Mutant.revert` again",
      m, fs)

/-! ### `Mutant.mutation_original_pair`

`splitlines(keepends=True)` is modelled for `\n` line endings (the only
terminator produced by the engine's own sources); Python `set`
difference keeps one copy of each line, and `list(...)[0]` faults on an
empty difference, modelled by `Option`. -/

/-- Python `str.splitlines(keepends=True)` restricted to `\n`
terminators: cut after every newline, keep the terminators, and do not
produce a trailing empty element. -/
def splitlinesKeepends (s : List Char) : List (List Char) :=
  match s with
  | [] => []
  | c :: rest =>
    match splitlinesKeepends rest with
    | [] => [[c]]
    | line :: lines =>
      if c = '\n' then [c] :: line :: lines
      else (c :: line) :: lines

/-- Python set difference `set(xs) - set(ys)` listed with one copy per
element (membership is what the claims use; Python's iteration order is
hash-dependent). -/
def setDiff (xs ys : List (List Char)) : List (List Char) :=
  xs.dedup.filter (fun l => ¬ l ∈ ys)

/-- The whitespace characters removed by Python `str.strip()`. -/
def isPySpace (c : Char) : Bool :=
  c = ' ' || c = '\t' || c = '\n' || c = '\r' || c = '\x0b' || c = '\x0c'

/-- Python `str.strip()`: drop leading and trailing whitespace. -/
def stripChars (l : List Char) : List Char :=
  ((l.dropWhile isPySpace).reverse.dropWhile isPySpace).reverse

/-- `Mutant.mutation_original_pair` (`muckup/mutators.py` lines 79-85):
diff the deduplicated line sets of the two sources, index element 0 of
each, and return the stripped pair `(original line, mutated line)`.
Indexing an empty difference is Python `IndexError`, modelled as `none`.
`original[0]` is evaluated first, as in the Python tuple expression. -/
def Mutant.mutation_original_pair (m : Mutant) :
    Option (List Char × List Char) :=
  let mutantLines := splitlinesKeepends m.mutated_source.data
  let normieLines := splitlinesKeepends m.source.data
  let mutation := setDiff mutantLines normieLines
  let original := setDiff normieLines mutantLines
  match original.head?, mutation.head? with
  | some o, some mu => some (stripChars o, stripChars mu)
  | _, _ => none

/-! ### Test execution and the per-mutant status state machine

One invocation of the external test suite either raises a timeout or
terminates with a pass/fail verdict after some elapsed wall time. -/

/-- Outcome of one test-suite run: `popen_streaming_output` either raises
`TimeoutError` or the process exits; `survived` is the boolean computed by
`run_test` / `tests_pass`, `elapsed` the measured wall time. -/
inductive TestRunResult where
  | timeout
  | completed (survived : Bool) (elapsed : ℚ)
deriving DecidableEq, Repr

/-- The pass/fail verdict of `MutationTestRunner.run_test`
(`muckup/runner.py` line 178): `returncode == 0 or (self.using_testmon and
returncode == 5)`. -/
def run_test_passed (using_testmon : Bool) (returncode : Int) : Bool :=
  returncode == 0 || (using_testmon && returncode == 5)

/-- The pass/fail verdict of `tests_pass` (`mutmut/__main__.py` line 656):
`returncode == 0 or (config.using_testmon and returncode == 5)`. -/
def tests_pass_verdict (using_testmon : Bool) (returncode : Int) : Bool :=
  returncode == 0 || (using_testmon && returncode == 5)

/-- Status classification of `MutationTestRunner.test_mutant`
(`muckup/runner.py` lines 128-141) for a mutant that is actually run:
`TimeoutError` gives `BAD_TIMEOUT`; otherwise elapsed time above
`baseline_test_time * 2` gives `OK_SUSPICIOUS`, then `survived` gives
`BAD_SURVIVED`, else `OK_KILLED`. -/
def test_mutant_status (baseline_test_time : ℚ) (r : TestRunResult) :
    MutantTestStatus :=
  match r with
  | .timeout => BAD_TIMEOUT
  | .completed survived elapsed =>
    if elapsed > baseline_test_time * 2 then OK_SUSPICIOUS
    else if survived then BAD_SURVIVED
    else OK_KILLED

/-- `MutationTestRunner.test_mutant` (`muckup/runner.py` lines 120-143):
returns the mutant unchanged when its status is not `UNTESTED`, otherwise
assigns the status computed by `test_mutant_status`. -/
def test_mutant (baseline_test_time : ℚ) (m : Mutant) (r : TestRunResult) :
    Mutant :=
  if m.status ≠ UNTESTED then m
  else { m with status := test_mutant_status baseline_test_time r }

/-- Status classification of `run_mutation` (`mutmut/__main__.py` lines
700-721) for a cached-`UNTESTED` mutant that is actually run:
`TimeoutError` gives `BAD_TIMEOUT`; otherwise a *failed* run slower than
`test_time_base + baseline_time_elapsed * test_time_multipler` gives
`OK_SUSPICIOUS`, then `survived` gives `BAD_SURVIVED`, else `OK_KILLED`. -/
def run_mutation_status (test_time_base baseline_time_elapsed
    test_time_multipler : ℚ) (r : TestRunResult) : MutantTestStatus :=
  match r with
  | .timeout => BAD_TIMEOUT
  | .completed survived elapsed =>
    if ¬ survived ∧ elapsed > test_time_base +
        baseline_time_elapsed * test_time_multipler then OK_SUSPICIOUS
    else if survived then BAD_SURVIVED
    else OK_KILLED

/-! ### Result cache lookup -/

/-- `get_cached_mutation_status` (`mutmut/cache.py` lines 351-378) on the
stored row of an existing cached mutant: trust `OK_KILLED`
unconditionally; otherwise a test-suite-hash mismatch downgrades to
`UNTESTED`; otherwise return the stored status. -/
def get_cached_mutation_status (storedStatus : MutantTestStatus)
    (tested_against_hash tests_hash : String) : MutantTestStatus :=
  if storedStatus = OK_KILLED then OK_KILLED
  else if tested_against_hash ≠ tests_hash then UNTESTED
  else storedStatus

/-! ### Aggregate exit codes -/

/-- `MutationTestRunner.compute_return_code` (`muckup/runner.py` lines
181-213): start from 0 and bit-OR in 1 for an exception, 2 when some
mutant has `BAD_SURVIVED`, 4 for `BAD_TIMEOUT`, 8 for `OK_SUSPICIOUS`. -/
def compute_return_code (mutants : List Mutant)
    (exception : Bool := false) : Nat :=
  let code := 0
  let code := if exception then code ||| 1 else code
  let code := if mutants.any (fun m => m.status == BAD_SURVIVED) then
    code ||| 2 else code
  let code := if mutants.any (fun m => m.status == BAD_TIMEOUT) then
    code ||| 4 else code
  let code := if mutants.any (fun m => m.status == OK_SUSPICIOUS) then
    code ||| 8 else code
  code

/-- `compute_exit_code` (`mutmut/__main__.py` lines 864-894) on the
config's running tallies. -/
def compute_exit_code (surviving_mutants surviving_mutants_timeout
    suspicious_mutants : Nat) (exception : Bool := false) : Nat :=
  let code := 0
  let code := if exception then code ||| 1 else code
  let code := if surviving_mutants > 0 then code ||| 2 else code
  let code := if surviving_mutants_timeout > 0 then code ||| 4 else code
  let code := if suspicious_mutants > 0 then code ||| 8 else code
  code

/-! ### The orchestrator loop

`MutationTestRunner.run_mutation_tests` (`muckup/runner.py` lines
108-118) iterates the mutants in order; for each it first reads
`mutant.mutation_original_pair` (an `IndexError` there aborts the run
before the mutant is tested), then calls `test_mutant`, and finally
returns `compute_return_code` over the list. Each mutant's test-run
outcome is supplied alongside it. -/

/-- The `for mutant in mutants` loop of `run_mutation_tests`, returning
the mutants with their assigned statuses, or the pair lookup's fault. -/
def run_mutation_tests_loop (baseline_test_time : ℚ) :
    List (Mutant × TestRunResult) → Except String (List Mutant)
  | [] => .ok []
  | (m, r) :: rest =>
    match m.mutation_original_pair with
    | none => .error "IndexError: list index out of range"
    | some _ =>
      let tested := test_mutant baseline_test_time m r
      match run_mutation_tests_loop baseline_test_time rest with
      | .error e => .error e
      | .ok ms => .ok (tested :: ms)

/-- `run_mutation_tests` itself: run the loop, then
`compute_return_code` on the tested mutants. -/
def run_mutation_tests (baseline_test_time : ℚ)
    (mutants : List (Mutant × TestRunResult)) : Except String Nat :=
  (run_mutation_tests_loop baseline_test_time mutants).map
    (fun ms => compute_return_code ms)

/-! ### The per-line index counter of `Mutator.mutate_node`

`Mutator.mutate_node` (`muckup/mutators.py` lines 402-441) keeps
`self.index`, reset to 0 whenever traversal reaches a new line (lines
408-411) and incremented at line 439 only after a mutant has been
emitted. A candidate is one `(node_key, mutation_operation)` item of the
node's rule-table entry; `excluded` is the verdict of
`self.exclude_line()` for the current line and `changes` is the `new !=
old` comparison. The emitted value is `self.index` as it stood when the
`Mutant` was yielded. -/

/-- Mutable counters of `Mutator` relevant to candidate indexing. -/
structure MutatorState where
  index : Nat
  current_line_index : Nat
deriving DecidableEq, Repr

/-- Lines 408-411 of `mutate_node`: entering a node whose start line
differs from `current_line_index` moves the line and resets `index`. -/
def enter_node_line (s : MutatorState) (startLine : Nat) : MutatorState :=
  if startLine ≠ s.current_line_index then
    { current_line_index := startLine, index := 0 }
  else s

/-- Lines 421-439 of `mutate_node` for one candidate: an excluded line is
skipped by `continue` (no emission, no counter change); an unchanged
candidate emits nothing and leaves the counter alone; a changing,
non-excluded candidate emits a mutant while `index` holds its current
value and only then increments it. -/
def mutate_candidate (s : MutatorState) (excluded changes : Bool) :
    MutatorState × Option Nat :=
  if excluded then (s, none)
  else if changes then ({ s with index := s.index + 1 }, some s.index)
  else (s, none)

/-- Process the candidates of one line in order, collecting the counter
values in effect at each emission. -/
def mutate_candidates (s : MutatorState) :
    List (Bool × Bool) → MutatorState × List Nat
  | [] => (s, [])
  | (ex, ch) :: rest =>
    let step := mutate_candidate s ex ch
    let next := mutate_candidates step.1 rest
    (next.1, match step.2 with
      | some i => i :: next.2
      | none => next.2)

/-! ### The syntax-tree walker (`Mutator.yield_mutants` / `mutate_node`)

The parso tree is modelled by `PNode`: a leaf carries its parso type tag,
its `prefix` (the whitespace/comments glued to the token) and its token
`value`; an inner node carries its type tag and children.
`node.get_root_node().get_code()` is the concatenation of `prefix ++
value` over the leaves in order, so a mutation that replaces one node's
attribute regenerates the full source with exactly that node's rendering
replaced; the walker below therefore carries the rendered text `before`
and `after` the current node explicitly. -/

/-- A parso tree node. `pre` is the token's prefix (whitespace and
comments before it); composite nodes render as their children in
order. -/
inductive PNode where
  | leaf (ty : String) (pre value : List Char)
  | node (ty : String) (children : List PNode)

/-- `node.type`. -/
def PNode.ty : PNode → String
  | .leaf t _ _ => t
  | .node t _ => t

/-- `getattr(node, 'value', None)`: only leaves have a value. -/
def PNode.valueOf? : PNode → Option (List Char)
  | .leaf _ _ v => some v
  | .node _ _ => none

mutual
/-- `node.get_code()`: prefix and value of every leaf in order. -/
def getCode : PNode → List Char
  | .leaf _ p v => p ++ v
  | .node _ cs => getCodeList cs

/-- `get_code` of a child list. -/
def getCodeList : List PNode → List Char
  | [] => []
  | c :: cs => getCode c ++ getCodeList cs
end

/-- The literal `' not not '` collapsed by
`get_code().replace(' not not ', ' ')` in `mutate_node`. -/
def notNotPat : List Char := [' ', 'n', 'o', 't', ' ', 'n', 'o', 't', ' ']

/-- Python `str.replace(' not not ', ' ')`: scan left to right, replacing
each (non-overlapping) occurrence of the nine-character pattern with a
single space. The fuel argument, initialised with the string's length,
makes the scan structurally recursive; it never runs out, since each
step consumes at least one character. -/
def collapseGo : Nat → List Char → List Char
  | 0, s => s
  | _ + 1, [] => []
  | fuel + 1, c :: cs =>
    if (c :: cs).take 9 = notNotPat then
      ' ' :: collapseGo fuel ((c :: cs).drop 9)
    else c :: collapseGo fuel cs

def collapseNotNot (s : List Char) : List Char := collapseGo s.length s

/-- One decimal digit as a character. -/
def digitChar (d : Nat) : Char :=
  if d = 0 then '0' else if d = 1 then '1' else if d = 2 then '2'
  else if d = 3 then '3' else if d = 4 then '4' else if d = 5 then '5'
  else if d = 6 then '6' else if d = 7 then '7' else if d = 8 then '8'
  else '9'

/-- Decimal digit string, most significant first (Python `repr` of a
nonnegative `int`), structurally recursive on a fuel that never runs out
when initialised with the number itself. -/
def natToDigitsGo : Nat → Nat → List Char
  | 0, n => [digitChar n]
  | fuel + 1, n =>
    if n < 10 then [digitChar n]
    else natToDigitsGo fuel (n / 10) ++ [digitChar (n % 10)]

def natToDigits (n : Nat) : List Char := natToDigitsGo n n

/-- Value of a digit character in the given base, as Python
`int(_, base)` accepts it. -/
def charDigit (base : Nat) (c : Char) : Option Nat :=
  let d :=
    if '0' ≤ c ∧ c ≤ '9' then some (c.toNat - 48)
    else if 'a' ≤ c ∧ c ≤ 'z' then some (c.toNat - 87)
    else if 'A' ≤ c ∧ c ≤ 'Z' then some (c.toNat - 55)
    else none
  match d with
  | some k => if k < base then some k else none
  | none => none

/-- Digit-run scanner shared by `int` and `float` parsing: digits of the
base with PEP 515 medial underscores (each `'_'` must sit between two
digits), carrying the accumulated value, the digit count (for fraction
lengths) and whether the previous character was a digit. Any other
character, a leading, trailing or doubled underscore, or an empty run is
rejected. -/
def parseRunGo (base : Nat) : List Char → Bool → Nat → Nat →
    Option (Nat × Nat)
  | [], afterDigit, acc, cnt =>
    if afterDigit then some (acc, cnt) else none
  | c :: rest, afterDigit, acc, cnt =>
    if c = '_' then
      if afterDigit then parseRunGo base rest false acc cnt else none
    else
      match charDigit base c with
      | some d => parseRunGo base rest true (acc * base + d) (cnt + 1)
      | none => none

/-- `int(s, base)` on an unsigned digit string, underscores included;
any other character (or an empty string) is a `ValueError`. -/
def parseNatBase (base : Nat) (s : List Char) : Option Nat :=
  (parseRunGo base s false 0 0).map (fun r => r.1)

/-- Split at the first character satisfying `p`; the matched character is
dropped from the second part. -/
def splitAtChar (s : List Char) (p : Char → Bool) :
    List Char × Option (List Char) :=
  match s.findIdx? p with
  | none => (s, none)
  | some i => (s.take i, some (s.drop (i + 1)))

/-- `float(s)` for the unsigned decimal/scientific forms (underscores
included), as the exact pair `(M, f)` with value `M / 10 ^ f`. The
integer and fraction digit runs are parsed separately, so an underscore
adjacent to the `'.'` or the exponent marker is rejected exactly as
Python rejects it. -/
def parsePyFloat (s : List Char) : Option (Nat × Nat) :=
  let mantEx := splitAtChar s (fun c => c == 'e' || c == 'E')
  let ipFp := splitAtChar mantEx.1 (fun c => c == '.')
  let fp := ipFp.2.getD []
  if ipFp.1 = [] ∧ fp = [] then none
  else
    let ip? : Option (Nat × Nat) :=
      if ipFp.1 = [] then some (0, 0) else parseRunGo 10 ipFp.1 false 0 0
    let fp? : Option (Nat × Nat) :=
      if fp = [] then some (0, 0) else parseRunGo 10 fp false 0 0
    match ip?, fp? with
    | some ipv, some fpv =>
      let M0 := ipv.1 * 10 ^ fpv.2 + fpv.1
      let e? : Option Int :=
        match mantEx.2 with
        | none => some 0
        | some es =>
          match es with
          | '+' :: rest => (parseNatBase 10 rest).map (fun n => (n : Int))
          | '-' :: rest => (parseNatBase 10 rest).map (fun n => -(n : Int))
          | _ => (parseNatBase 10 es).map (fun n => (n : Int))
      match e? with
      | none => none
      | some e =>
        let net : Int := e - (fpv.2 : Int)
        if 0 ≤ net then some (M0 * 10 ^ net.toNat, 0)
        else some (M0, (- net).toNat)
    | _, _ => none

/-- Drop trailing `'0'` characters. -/
def stripTrailingZeros (l : List Char) : List Char :=
  (l.reverse.dropWhile (fun c => c == '0')).reverse

/-- Left-pad with `'0'` to width `w`. -/
def padLeftZeros (w : Nat) (l : List Char) : List Char :=
  List.replicate (w - l.length) '0' ++ l

/-- Fixed-point decimal rendering of `M / 10 ^ f`, with Python's `.0`
tail on whole floats and trailing fraction zeros stripped. -/
def renderDecimal (M f : Nat) : List Char :=
  if f = 0 then natToDigits M ++ ['.', '0']
  else
    let frac := stripTrailingZeros (padLeftZeros f (natToDigits (M % 10 ^ f)))
    natToDigits (M / 10 ^ f) ++ ['.'] ++ (if frac = [] then ['0'] else frac)

/-- `value[:-1]` and `[value[-1]]` when the last character satisfies `p`,
else the string unchanged with an empty suffix. -/
def stripLastIf (v : List Char) (p : Char → Bool) : List Char × List Char :=
  match v.getLast? with
  | some c => if p c then (v.dropLast, [c]) else (v, [])
  | none => (v, [])

/-- Python `str.endswith`. -/
def endsWith (l suf : List Char) : Bool :=
  l.drop (l.length - suf.length) == suf

/-- The suffix kept aside by `number_mutation`: the legacy-long marker,
overwritten by the imaginary marker when both are present. -/
def numberSuffix (value : List Char) : List Char :=
  if (stripLastIf (stripLastIf value (fun c => c == 'l' || c == 'L')).1
      (fun c => c == 'j' || c == 'J')).2 ≠ [] then
    (stripLastIf (stripLastIf value (fun c => c == 'l' || c == 'L')).1
      (fun c => c == 'j' || c == 'J')).2
  else (stripLastIf value (fun c => c == 'l' || c == 'L')).2

/-- The literal with both markers stripped. -/
def numberStripped (value : List Char) : List Char :=
  (stripLastIf (stripLastIf value (fun c => c == 'l' || c == 'L')).1
    (fun c => c == 'j' || c == 'J')).1

/-- The base chosen from the literal's prefix, with the prefix
stripped. -/
def numberBaseValue (vb : List Char) : Nat × List Char :=
  if vb.take 2 = ['0', 'o'] then (8, vb.drop 2)
  else if vb.take 2 = ['0', 'x'] then (16, vb.drop 2)
  else if vb.take 2 = ['0', 'b'] then (2, vb.drop 2)
  else if vb.take 1 = ['0'] ∧ vb.length > 1 ∧ vb.get? 1 ≠ some '.' then
    (8, vb.drop 1)
  else (10, vb)

/-- Parse as `int` in the chosen base, or else as `float`; add one and
re-render (`repr(parsed + 1)`). -/
def numberCore (vb : List Char) : Option (List Char) :=
  match parseNatBase (numberBaseValue vb).1 (numberBaseValue vb).2 with
  | some n => some (natToDigits (n + 1))
  | none =>
    match parsePyFloat (numberBaseValue vb).2 with
    | some Mf => some (renderDecimal (Mf.1 + 10 ^ Mf.2) Mf.2)
    | none => none

/-- `number_mutation` (`muckup/mutators.py` lines 111-145): strip a
legacy-long/imaginary suffix, strip a base prefix, parse as `int` in
that base or else as `float`, add one, re-render, and re-attach the
suffix when the rendering does not already end with it. A failed parse
is the propagated `ValueError` (`none`). -/
def number_mutation (value : List Char) : Option (List Char) :=
  match numberCore (numberStripped value) with
  | none => none
  | some res =>
    some (if numberSuffix value = [] then res
      else if endsWith res (numberSuffix value) then res
      else res ++ numberSuffix value)

/-- `context.stack[-i]`. -/
def stackNeg (stack : List PNode) (i : Nat) : Option PNode :=
  stack.reverse.get? (i - 1)

/-- Python `dict.get(v, v)` for the string-to-string rule tables. -/
def dictGet (d : List (List Char × List Char)) (v : List Char) :
    List Char :=
  match d.find? (fun p => p.1 == v) with
  | some p => p.2
  | none => v

/-- The operator swap table of `operator_mutation`. -/
def operator_map : List (List Char × List Char) := [
  ("+".data, "-".data), ("-".data, "+".data), ("*".data, "/".data),
  ("/".data, "*".data), ("//".data, "/".data), ("%".data, "/".data),
  ("<<".data, ">>".data), (">>".data, "<<".data), ("&".data, "|".data),
  ("|".data, "&".data), ("^".data, "&".data), ("**".data, "*".data),
  ("~".data, "".data),
  ("+=".data, "-=".data), ("-=".data, "+=".data), ("*=".data, "/=".data),
  ("/=".data, "*=".data), ("//=".data, "/=".data), ("%=".data, "/=".data),
  ("<<=".data, ">>=".data), (">>=".data, "<<=".data),
  ("&=".data, "|=".data), ("|=".data, "&=".data), ("^=".data, "&=".data),
  ("**=".data, "*=".data), ("~=".data, "=".data),
  ("<".data, "<=".data), ("<=".data, "<".data), (">".data, ">=".data),
  (">=".data, ">".data), ("==".data, "!=".data), ("!=".data, "==".data),
  ("<>".data, "==".data)]

/-- The keyword swap table of `keyword_mutation`. -/
def keyword_map : List (List Char × List Char) := [
  ("not".data, "".data), ("is".data, "is not".data),
  ("in".data, "not in".data), ("break".data, "continue".data),
  ("continue".data, "break".data), ("True".data, "False".data),
  ("False".data, "True".data)]

/-- The name swap table of the `name` entry of `mutations_by_type`. -/
def name_map : List (List Char × List Char) := [
  ("True".data, "False".data), ("False".data, "True".data),
  ("deepcopy".data, "copy".data)]

/-- `operator_mutation` (lines 217-257): unchanged inside
`import_from`/`param` contexts, else the table swap. `stack[-2]` on a
too-short stack is an `IndexError`. -/
def operator_mutation (stack : List PNode) (value : List Char) :
    Option (List Char) :=
  match stackNeg stack 2 with
  | none => none
  | some p =>
    if p.ty = "import_from" ∨ p.ty = "param" then some value
    else some (dictGet operator_map value)

/-- `keyword_mutation` (lines 194-214): `in`/`is` directly under a
`comp_op`, and anything directly under a `for_stmt`, are protected;
otherwise the table swap. -/
def keyword_mutation (stack : List PNode) (value : List Char) :
    Option (List Char) :=
  if stack.length > 2 ∧ (stackNeg stack 2).any (fun p => p.ty == "comp_op") ∧
      (value = "in".data ∨ value = "is".data) then some value
  else if stack.length > 1 ∧
      (stackNeg stack 2).any (fun p => p.ty == "for_stmt") then some value
  else some (dictGet keyword_map value)

/-- `string_mutation` (lines 148-157): split off the literal's prefix at
the first quote (`ValueError` when there is none), leave triple-quoted
literals alone (note: the Python `return value` there returns the
prefix-stripped text), and wrap the content in `XX` sentinels. The
position of the first quote is `stringQuoteCut` (Python's
`min([x for x in [value.find(chr(34)), value.find(chr(39))] if x != -1])`,
raising on an unquoted value). -/
def stringQuoteCut (value : List Char) : Option Nat :=
  match value.findIdx? (fun c => c == '"'),
      value.findIdx? (fun c => c == '\'') with
  | some a, some b => some (min a b)
  | some a, none => some a
  | none, some b => some b
  | none, none => none

def string_mutation (value : List Char) : Option (List Char) :=
  match stringQuoteCut value with
  | none => none
  | some cut =>
    let pre := value.take cut
    let rest := value.drop cut
    if rest.take 3 = ['"', '"', '"'] ∨ rest.take 3 = ['\'', '\'', '\''] then
      some rest
    else
      match rest, rest.getLast? with
      | q :: _, some last =>
        some (pre ++ [q] ++ ['X', 'X'] ++ (rest.drop 1).dropLast ++
          ['X', 'X'] ++ [last])
      | _, _ => none

/-- `and_or_test_mutation` (lines 260-267): replace the connective by a
fresh `Keyword` with the opposite value (note the space folded into the
new value and the empty prefix); a missing `children[1]`, a valueless
`children[1]` or a value outside the table raises. -/
def and_or_test_mutation (cs : List PNode) : Option (List PNode) :=
  match cs with
  | c0 :: c1 :: rest =>
    match c1.valueOf? with
    | some v =>
      if v = "and".data then
        some (c0 :: .leaf "keyword" [] " or".data :: rest)
      else if v = "or".data then
        some (c0 :: .leaf "keyword" [] " and".data :: rest)
      else none
    | none => none
  | _ => none

/-- `lambda_mutation` (lines 160-165): replace everything after the
first three children by a fresh `' None'` name, or by `' 0'` when the
lambda is exactly `lambda ...: None`. The returned list always contains
a fresh node, so it always compares unequal. -/
def lambda_mutation (cs : List PNode) : Option (List PNode) :=
  if cs.length ≠ 4 ∨ ¬ ((cs.getLast?).any
      (fun c => c.valueOf? == some "None".data)) then
    some (cs.take 3 ++ [.leaf "name" [] " None".data])
  else
    some (cs.take 3 ++ [.leaf "name" [] " 0".data])

/-- `expression_mutation` (lines 270-287): on `name = expr` replace the
right-hand side by a fresh `' None'` name (`' 7'` when it already is
`None`). The `annassign` branch (`children[0]` is `':'`) slice-assigns
the original list in place and returns it, so it emits nothing. -/
def expression_mutation (cs : List PNode) : Option (List PNode) :=
  match cs with
  | c0 :: c1 :: rest =>
    if c0.ty = "operator" ∧ c0.valueOf? = some ":".data then none
    else if c1.ty = "operator" ∧ c1.valueOf? = some "=".data then
      match rest with
      | c2 :: rest2 =>
        let x : List Char :=
          if c2.valueOf? = some "None".data then " 7".data
          else " None".data
        some (c0 :: c1 :: .leaf "name" [] x :: rest2)
      | [] => none
    else none
  | _ => none

/-- `decorator_mutation` (lines 290-292): assert a trailing newline and
keep only it. A single-child decorator would return a list equal
element-wise to the original, emitting nothing. -/
def decorator_mutation (cs : List PNode) : Option (List PNode) :=
  match cs.getLast? with
  | some lastN =>
    if lastN.ty = "newline" then
      if cs.length ≥ 2 then some [lastN] else none
    else none
  | none => none

/-- `trailer_mutation` (lines 295-306): replace the index name of a
`foo[bar]` trailer by a fresh `None` name (with an empty prefix). -/
def trailer_mutation (cs : List PNode) : Option (List PNode) :=
  match cs with
  | [c0, .leaf cty _p1 v1, c2] =>
    if c0.ty = "operator" ∧ c0.valueOf? = some "[".data ∧
        c2.ty = "operator" ∧ c2.valueOf? = some "]".data ∧
        cty = "name" ∧ v1 ≠ "None".data then
      some [c0, .leaf "name" [] "None".data, c2]
    else none
  | _ => none

/-- `arglist_mutation` (lines 309-315): replace a leading name argument
of a long argument list by a fresh `None` name. -/
def arglist_mutation (cs : List PNode) : Option (List PNode) :=
  match cs with
  | .leaf cty p0 v0 :: rest =>
    if (PNode.leaf cty p0 v0 :: rest).length > 3 ∧ cty = "name" ∧
        v0 ≠ "None".data then
      some (.leaf "name" [] "None".data :: rest)
    else none
  | _ => none

/-- `argument_mutation` (lines 168-191): inside a `dict(...)` call -
recognised through the `power`/`atom_expr` ancestor - append `XX` to a
keyword-argument name, keeping its prefix. -/
def argumentPowerNode (stack : List PNode) : Option PNode :=
  if stack.length ≥ 3 ∧ (stackNeg stack 3).any
      (fun p => p.ty == "power" || p.ty == "atom_expr") then
    stackNeg stack 3
  else if stack.length ≥ 4 ∧ (stackNeg stack 4).any
      (fun p => p.ty == "power" || p.ty == "atom_expr") then
    stackNeg stack 4
  else none

def argument_mutation (stack : List PNode) (cs : List PNode) :
    Option (List PNode) :=
  match argumentPowerNode stack with
  | none => none
  | some (.node _ (pc0 :: _)) =>
    if pc0.ty = "name" ∧ pc0.valueOf? = some "dict".data then
      match cs with
      | .leaf cty p0 v0 :: rest =>
        if cty = "name" then
          some (.leaf "name" p0 (v0 ++ "XX".data) :: rest)
        else none
      | _ => none
    else none
  | some _ => none

/-- One candidate of `mutate_node` (lines 416-439): look the node's type
up in `mutations_by_type` and run the rule on the attribute; `some` is a
node with the mutated attribute and stands for the `new != old` case in
which a mutant is emitted. -/
def mutate_operation (stack : List PNode) (n : PNode) : Option PNode :=
  match n with
  | .leaf ty p v =>
    match leafValueRule stack ty v with
    | none => none
    | some nv => if nv ≠ v then some (.leaf ty p nv) else none
  | .node ty cs =>
    match nodeChildrenRule stack ty cs with
    | none => none
    | some ncs => some (.node ty ncs)
where
  /-- The `value` rules of `mutations_by_type`. -/
  leafValueRule (stack : List PNode) (ty : String) (v : List Char) :
      Option (List Char) :=
    if ty = "operator" then operator_mutation stack v
    else if ty = "keyword" then keyword_mutation stack v
    else if ty = "number" then number_mutation v
    else if ty = "name" then some (dictGet name_map v)
    else if ty = "string" then string_mutation v
    else none
  /-- The `children` rules of `mutations_by_type`. -/
  nodeChildrenRule (stack : List PNode) (ty : String)
      (cs : List PNode) : Option (List PNode) :=
    if ty = "argument" then argument_mutation stack cs
    else if ty = "or_test" ∨ ty = "and_test" then and_or_test_mutation cs
    else if ty = "lambdef" then lambda_mutation cs
    else if ty = "expr_stmt" ∨ ty = "annassign" then expression_mutation cs
    else if ty = "decorator" then decorator_mutation cs
    else if ty = "trailer" then trailer_mutation cs
    else if ty = "arglist" then arglist_mutation cs
    else none

/-- Prefixes are whitespace and comments. -/
def wfPre (p : List Char) : Bool :=
  p.all isPySpace || p.any (fun c => c == '#')

/-- Token values do not start with whitespace. -/
def wfVal (v : List Char) : Bool :=
  match v with
  | [] => true
  | c :: _ => ! isPySpace c

mutual

/-- The conjunction of the parse-tree invariants over the whole tree. -/
def wfTree : PNode → Bool
  | .leaf _ p v => wfPre p && wfVal v
  | .node ty cs =>
    (getCodeList cs != [' ', 'N', 'o', 'n', 'e']) &&
    (ty != "decorator" || (match cs with
      | .leaf _ _ v :: _ => v == "@".data
      | _ => false)) &&
    (!(ty == "lambdef" && decide (5 ≤ cs.length)) ||
      (getCodeList (cs.drop 3)).any (fun c => c == ':')) &&
    wfForest cs

/-- The invariants over a list of subtrees. -/
def wfForest : List PNode → Bool
  | [] => true
  | c :: cs => wfTree c && wfForest cs

end

/-- The `->` return-annotation arrow that stops `mutate_list_of_nodes`. -/
def PNode.isArrow : PNode → Bool
  | .leaf ty _ v => ty == "operator" && v == "->".data
  | .node _ _ => false

mutual

/-- `mutate_node` (lines 402-440): skip `tfpdef` parameters, push the
node, walk the children first, then run the node's own rule; the
emission guard `new != old` is `mutate_operation` returning `some`, and
the emitted mutant's text is the re-rendered root with the
`' not not '` collapse. `before` and `after` carry the rendering of the
rest of the tree, and `exclude` stands for `self.exclude_line()` at
this node. -/
def mutate_node (exclude : List PNode → Bool) (filename : String)
    (src before after : List Char) (stack : List PNode) (n : PNode) :
    List Mutant :=
  if n.ty = "tfpdef" then []
  else
    (match n with
      | .leaf _ _ _ => []
      | .node _ cs =>
        mutate_list_of_nodes exclude filename src before after
          (stack ++ [n]) cs) ++
    (if exclude (stack ++ [n]) then []
      else
        match mutate_operation (stack ++ [n]) n with
        | none => []
        | some n2 =>
          [⟨filename, String.mk src,
            String.mk (collapseNotNot (before ++ getCode n2 ++ after)),
            .UNTESTED, false⟩])

/-- `mutate_list_of_nodes` (lines 396-400): walk the children in order,
stopping at a `->` operator token. -/
def mutate_list_of_nodes (exclude : List PNode → Bool) (filename : String)
    (src before after : List Char) (stack : List PNode) :
    List PNode → List Mutant
  | [] => []
  | c :: rest =>
    if c.isArrow then []
    else
      mutate_node exclude filename src before (getCodeList rest ++ after)
        stack c ++
      mutate_list_of_nodes exclude filename src (before ++ getCode c) after
        stack rest

end

/-- A file name never equals itself with the `.bak` suffix attached. -/
theorem append_bak_ne (s : String) : s ++ ".bak" ≠ s := by
  intro h
  have h2 := congrArg String.length h
  have h3 : (".bak" : String).length = 4 := rfl
  rw [String.length_append, h3] at h2
  omega

/-- C7: the test-run adapter reports a pass exactly for exit code 0, or
exit code 5 with testmon active; exit code 5 without testmon is a
failure. `run_test` (muckup) and `tests_pass` (mutmut) use the same
formula. -/
theorem claim_C7 :
    (∀ (using_testmon : Bool) (returncode : Int),
      run_test_passed using_testmon returncode = true ↔
        (returncode = 0 ∨ (returncode = 5 ∧ using_testmon = true))) ∧
    (∀ (using_testmon : Bool) (returncode : Int),
      tests_pass_verdict using_testmon returncode =
        run_test_passed using_testmon returncode) ∧
    run_test_passed false 5 = false ∧
    tests_pass_verdict false 5 = false := by
  refine ⟨?_, fun tm rc => rfl, by decide, by decide⟩
  intro tm rc
  cases tm <;> simp [run_test_passed]

/-- C8 counterexample: with the first of two changing candidates on a
line excluded, the surviving mutant is emitted at counter value 0, not
the value 1 it receives with no exclusion filter — the skipped candidate
does not advance the per-line index. -/
theorem claim_C8_counterexample :
    mutate_candidate ⟨0, 0⟩ true true = (⟨0, 0⟩, none) ∧
    (mutate_candidates ⟨0, 0⟩ [(true, true), (false, true)]).2 = [0] ∧
    (mutate_candidates ⟨0, 0⟩ [(false, true), (false, true)]).2 = [0, 1] ∧
    (0 : Nat) ≠ 1 := by
  refine ⟨rfl, rfl, rfl, by decide⟩

/-- C8 (amended): an excluded candidate is skipped with no mutant emitted
and with the per-line index counter left unchanged; a non-excluded
candidate whose rewrite leaves the value unchanged also leaves the
counter alone; only an emitting candidate advances the counter, so the
counter values seen by later mutants on the line depend on the exclusion
filter. -/
theorem claim_C8_amended :
    (∀ (s : MutatorState) (changes : Bool),
      mutate_candidate s true changes = (s, none)) ∧
    (∀ s : MutatorState, mutate_candidate s false false = (s, none)) ∧
    (∀ s : MutatorState, mutate_candidate s false true =
      ({ s with index := s.index + 1 }, some s.index)) :=
  ⟨fun _ _ => rfl, fun _ => rfl, fun _ => rfl⟩

/-- C3: the cache lookup trusts `OK_KILLED` regardless of the stored
test-suite hash; any other stored status is downgraded to `UNTESTED` on a
hash mismatch and returned unchanged on a hash match. -/
theorem claim_C3 :
    (∀ h1 h2 : String,
      get_cached_mutation_status .OK_KILLED h1 h2 = .OK_KILLED) ∧
    (∀ (s : MutantTestStatus) (h1 h2 : String), s ≠ .OK_KILLED → h1 ≠ h2 →
      get_cached_mutation_status s h1 h2 = .UNTESTED) ∧
    (∀ (s : MutantTestStatus) (h1 h2 : String), s ≠ .OK_KILLED → h1 = h2 →
      get_cached_mutation_status s h1 h2 = s) := by
  refine ⟨fun h1 h2 => by simp [get_cached_mutation_status], ?_, ?_⟩ <;>
    · intro s h1 h2 hs hh
      simp [get_cached_mutation_status, hs, hh]

/-- Witness for C3 at concrete inputs. -/
theorem claim_C3_witness :
    get_cached_mutation_status .BAD_SURVIVED "a" "b" = .UNTESTED ∧
    get_cached_mutation_status .BAD_SURVIVED "a" "a" = .BAD_SURVIVED :=
  ⟨claim_C3.2.1 .BAD_SURVIVED "a" "b" (by decide) (by decide),
   claim_C3.2.2 .BAD_SURVIVED "a" "a" (by decide) rfl⟩

/-- C1 counterexample: in `run_mutation` (mutmut), a test run that
*passes* while exceeding the suspiciousness threshold is classified
`BAD_SURVIVED`, not `OK_SUSPICIOUS` — the claim's "regardless of whether
the tests passed" fails for `run_mutation`. -/
theorem claim_C1_counterexample :
    (100 : ℚ) > 0 + 1 * 2 ∧
    run_mutation_status 0 1 2 (.completed true 100) = .BAD_SURVIVED ∧
    run_mutation_status 0 1 2 (.completed true 100) ≠ .OK_SUSPICIOUS := by
  refine ⟨by norm_num, ?_, ?_⟩ <;> simp [run_mutation_status]

/-- C1 (amended): an `UNTESTED` mutant receives exactly one terminal
status. In `MutationTestRunner.test_mutant` the order is as claimed:
timeout gives `BAD_TIMEOUT`; otherwise elapsed time above
`baseline_test_time * 2` gives `OK_SUSPICIOUS` regardless of the verdict;
otherwise a passing run gives `BAD_SURVIVED` and a failing run
`OK_KILLED`. In `run_mutation` the suspicious branch additionally
requires the tests to have *failed*: a passing run is always
`BAD_SURVIVED`, and a failing run is `OK_SUSPICIOUS` when slower than
`test_time_base + baseline_time_elapsed * test_time_multipler`, else
`OK_KILLED`. -/
theorem claim_C1_amended :
    (∀ T : ℚ, test_mutant_status T .timeout = .BAD_TIMEOUT) ∧
    (∀ (T elapsed : ℚ) (survived : Bool), elapsed > T * 2 →
      test_mutant_status T (.completed survived elapsed) = .OK_SUSPICIOUS) ∧
    (∀ T elapsed : ℚ, ¬ elapsed > T * 2 →
      test_mutant_status T (.completed true elapsed) = .BAD_SURVIVED) ∧
    (∀ T elapsed : ℚ, ¬ elapsed > T * 2 →
      test_mutant_status T (.completed false elapsed) = .OK_KILLED) ∧
    (∀ (m : Mutant) (T : ℚ) (r : TestRunResult), m.status = .UNTESTED →
      (test_mutant T m r).status = test_mutant_status T r) ∧
    (∀ (T : ℚ) (r : TestRunResult), test_mutant_status T r ≠ .UNTESTED) ∧
    (∀ base T mult : ℚ,
      run_mutation_status base T mult .timeout = .BAD_TIMEOUT) ∧
    (∀ base T mult elapsed : ℚ, elapsed > base + T * mult →
      run_mutation_status base T mult (.completed false elapsed) =
        .OK_SUSPICIOUS) ∧
    (∀ base T mult elapsed : ℚ,
      run_mutation_status base T mult (.completed true elapsed) =
        .BAD_SURVIVED) ∧
    (∀ base T mult elapsed : ℚ, ¬ elapsed > base + T * mult →
      run_mutation_status base T mult (.completed false elapsed) =
        .OK_KILLED) ∧
    (∀ (base T mult : ℚ) (r : TestRunResult),
      run_mutation_status base T mult r ≠ .UNTESTED) := by
  refine ⟨fun T => rfl, ?_, ?_, ?_, ?_, ?_, fun b T mu => rfl, ?_, ?_, ?_, ?_⟩
  · intro T elapsed survived h
    simp [test_mutant_status, h]
  · intro T elapsed h
    simp [test_mutant_status, h]
  · intro T elapsed h
    simp [test_mutant_status, h]
  · intro m T r h
    simp [test_mutant, h]
  · intro T r
    cases r with
    | timeout => simp [test_mutant_status]
    | completed survived elapsed =>
      by_cases h : elapsed > T * 2 <;> cases survived <;>
        simp [test_mutant_status, h]
  · intro base T mult elapsed h
    simp [run_mutation_status, h]
  · intro base T mult elapsed
    simp [run_mutation_status]
  · intro base T mult elapsed h
    simp [run_mutation_status, h]
  · intro base T mult r
    cases r with
    | timeout => simp [run_mutation_status]
    | completed survived elapsed =>
      by_cases h : elapsed > base + T * mult <;> cases survived <;>
        simp [run_mutation_status, h]

/-- Witness for C1 at concrete inputs. -/
theorem claim_C1_witness :
    test_mutant_status 1 (.completed true 3) = .OK_SUSPICIOUS ∧
    test_mutant_status 1 (.completed true 1) = .BAD_SURVIVED ∧
    test_mutant_status 1 (.completed false 1) = .OK_KILLED ∧
    (test_mutant 1 ⟨"f.py", "s", "m", .UNTESTED, false⟩ .timeout).status =
      .BAD_TIMEOUT ∧
    run_mutation_status 0 1 2 (.completed false 4) = .OK_SUSPICIOUS ∧
    run_mutation_status 0 1 2 (.completed false 1) = .OK_KILLED :=
  ⟨claim_C1_amended.2.1 1 3 true (by norm_num),
   claim_C1_amended.2.2.1 1 1 (by norm_num),
   claim_C1_amended.2.2.2.1 1 1 (by norm_num),
   by
     rw [claim_C1_amended.2.2.2.2.1 ⟨"f.py", "s", "m", .UNTESTED, false⟩ 1
       .timeout rfl]
     exact claim_C1_amended.1 1,
   claim_C1_amended.2.2.2.2.2.2.2.1 0 1 2 4 (by norm_num),
   claim_C1_amended.2.2.2.2.2.2.2.2.2.1 0 1 2 1 (by norm_num)⟩

/-- C2: both exit-code computations equal the bitwise OR of the four
independent flags (1 exception, 2 survived, 4 timeout, 8 suspicious);
with nothing flagged the code is 0, and one survived plus one timed out
with no exception gives 6. -/
theorem claim_C2 :
    (∀ (mutants : List Mutant) (exception : Bool),
      compute_return_code mutants exception =
        ((if exception then 1 else 0) : Nat) |||
        (if mutants.any (fun m => m.status == .BAD_SURVIVED) then 2 else 0) |||
        (if mutants.any (fun m => m.status == .BAD_TIMEOUT) then 4 else 0) |||
        (if mutants.any (fun m => m.status == .OK_SUSPICIOUS) then 8 else 0)) ∧
    (∀ (s t u : Nat) (e : Bool),
      compute_exit_code s t u e =
        ((if e then 1 else 0) : Nat) ||| (if s > 0 then 2 else 0) |||
        (if t > 0 then 4 else 0) ||| (if u > 0 then 8 else 0)) ∧
    (∀ mutants : List Mutant,
      mutants.any (fun m => m.status == .BAD_SURVIVED) = false →
      mutants.any (fun m => m.status == .BAD_TIMEOUT) = false →
      mutants.any (fun m => m.status == .OK_SUSPICIOUS) = false →
      compute_return_code mutants false = 0) ∧
    compute_exit_code 0 0 0 false = 0 ∧
    compute_return_code
      [⟨"a.py", "s", "m1", .BAD_SURVIVED, false⟩,
       ⟨"a.py", "s", "m2", .BAD_TIMEOUT, false⟩] false = 6 ∧
    compute_exit_code 1 1 0 false = 6 := by
  refine ⟨?_, ?_, ?_, by decide, by decide, by decide⟩
  · intro ms e
    unfold compute_return_code
    cases e <;>
      cases h1 : ms.any (fun m => m.status == .BAD_SURVIVED) <;>
      cases h2 : ms.any (fun m => m.status == .BAD_TIMEOUT) <;>
      cases h3 : ms.any (fun m => m.status == .OK_SUSPICIOUS) <;>
      simp [h1, h2, h3]
  · intro s t u e
    unfold compute_exit_code
    cases e <;>
      by_cases hs : s > 0 <;> by_cases ht : t > 0 <;> by_cases hu : u > 0 <;>
      simp [hs, ht, hu]
  · intro ms h1 h2 h3
    unfold compute_return_code
    simp [h1, h2, h3]

/-- Witness for C2's zero-flag case at the empty mutant list. -/
theorem claim_C2_witness : compute_return_code [] false = 0 :=
  claim_C2.2.2.1 [] rfl rfl rfl

/-- C5: calling `apply` on an already-applied mutant and `revert` on a
non-applied mutant raise and leave the file system and the `applied`
flag untouched; a successful `apply` sets the flag and a successful
`revert` clears it. -/
theorem claim_C5 :
    (∀ (m : Mutant) (fs : FileSystem), m.applied = true →
      m.applyFs fs =
        (some "Mutant is applied. Call `Mutant.revert` before calling `Mutant.apply` again",
          m, fs)) ∧
    (∀ (m : Mutant) (fs : FileSystem), m.applied = false →
      m.revertFs fs =
        (some "Mutant is not applied. Call `Mutant.apply` before calling `Mutant.revert` again",
          m, fs)) ∧
    (∀ (m : Mutant) (fs : FileSystem), m.applied = false →
      (m.applyFs fs).1 = none ∧ (m.applyFs fs).2.1.applied = true) ∧
    (∀ (m : Mutant) (fs : FileSystem) (c : String), m.applied = true →
      fs (m.filename ++ ".bak") = some c →
      (m.revertFs fs).1 = none ∧ (m.revertFs fs).2.1.applied = false) := by
  refine ⟨?_, ?_, ?_, ?_⟩
  · intro m fs h
    simp [Mutant.applyFs, h]
  · intro m fs h
    simp [Mutant.revertFs, h]
  · intro m fs h
    simp [Mutant.applyFs, h]
  · intro m fs c h hbak
    simp [Mutant.revertFs, h, hbak]

/-- Witness for C5 at concrete mutants and file systems. -/
theorem claim_C5_witness :
    (Mutant.applyFs ⟨"f.py", "orig", "mut", .UNTESTED, true⟩ (fun _ => none)).1 =
      some "Mutant is applied. Call `Mutant.revert` before calling `Mutant.apply` again" ∧
    (Mutant.revertFs ⟨"f.py", "orig", "mut", .UNTESTED, false⟩ (fun _ => none)).1 =
      some "Mutant is not applied. Call `Mutant.apply` before calling `Mutant.revert` again" ∧
    (Mutant.applyFs ⟨"f.py", "orig", "mut", .UNTESTED, false⟩ (fun _ => none)).2.1.applied
      = true ∧
    (Mutant.revertFs ⟨"f.py", "orig", "mut", .UNTESTED, true⟩
      (fun p => if p = "f.py.bak" then some "orig" else none)).2.1.applied = false :=
  ⟨by rw [claim_C5.1 ⟨"f.py", "orig", "mut", .UNTESTED, true⟩ (fun _ => none) rfl],
   by rw [claim_C5.2.1 ⟨"f.py", "orig", "mut", .UNTESTED, false⟩ (fun _ => none) rfl],
   (claim_C5.2.2.1 ⟨"f.py", "orig", "mut", .UNTESTED, false⟩ (fun _ => none) rfl).2,
   (claim_C5.2.2.2 ⟨"f.py", "orig", "mut", .UNTESTED, true⟩
     (fun p => if p = "f.py.bak" then some "orig" else none) "orig" rfl
     (by simp)).2⟩

/-- C6 counterexample: when the on-disk file does not hold the mutant's
`source` (here it holds `"other"`), `apply(); revert()` leaves the file
containing the mutant's `source` field (`"orig"`), not its pre-apply
content — the backup is written from `self.source`, not from the file. -/
theorem claim_C6_counterexample :
    (Mutant.revertFs
        (Mutant.applyFs ⟨"f.py", "orig", "mut", .UNTESTED, false⟩
          (fun p => if p = "f.py" then some "other" else none)).2.1
        (Mutant.applyFs ⟨"f.py", "orig", "mut", .UNTESTED, false⟩
          (fun p => if p = "f.py" then some "other" else none)).2.2).2.2 "f.py"
      = some "orig" ∧
    (fun p => if p = "f.py" then some "other" else none : FileSystem) "f.py"
      = some "other" ∧
    (some "orig" : Option String) ≠ some "other" := by
  refine ⟨by decide, rfl, by decide⟩

/-- C6 (amended): provided the file currently holds the mutant's
`source` — which is its content before `apply` in every run where the
engine's own discipline is respected — `apply(); revert()` restores the
file byte-for-byte, clears `applied`, and leaves no backup file. -/
theorem claim_C6_amended :
    ∀ (m : Mutant) (fs : FileSystem), m.applied = false →
    fs m.filename = some m.source →
    (m.applyFs fs).1 = none ∧
    (Mutant.revertFs (m.applyFs fs).2.1 (m.applyFs fs).2.2).1 = none ∧
    (Mutant.revertFs (m.applyFs fs).2.1 (m.applyFs fs).2.2).2.2 m.filename =
      fs m.filename ∧
    (Mutant.revertFs (m.applyFs fs).2.1 (m.applyFs fs).2.2).2.1.applied =
      false ∧
    (Mutant.revertFs (m.applyFs fs).2.1 (m.applyFs fs).2.2).2.2
      (m.filename ++ ".bak") = none := by
  intro m fs h hsrc
  have hne : m.filename ++ ".bak" ≠ m.filename := append_bak_ne m.filename
  have hne2 : m.filename ≠ m.filename ++ ".bak" := fun hh => hne hh.symm
  simp [Mutant.applyFs, h, Mutant.revertFs, FSet, FDel, hne, hne2, hsrc]

/-- Witness for C6 at a concrete mutant whose file holds its source. -/
theorem claim_C6_witness :
    (fun p => if p = "g.py" then some "src" else none : FileSystem) "g.py" =
      some ("src" : String) ∧
    (Mutant.revertFs
        (Mutant.applyFs ⟨"g.py", "src", "mu", .UNTESTED, false⟩
          (fun p => if p = "g.py" then some "src" else none)).2.1
        (Mutant.applyFs ⟨"g.py", "src", "mu", .UNTESTED, false⟩
          (fun p => if p = "g.py" then some "src" else none)).2.2).2.2 "g.py"
      = some "src" :=
  ⟨rfl,
    ((claim_C6_amended ⟨"g.py", "src", "mu", .UNTESTED, false⟩
      (fun p => if p = "g.py" then some "src" else none) rfl
      rfl).2.2.1).trans rfl⟩

/-- C10: `Mutant.__eq__` compares exactly the quadruple
`(filename, source, mutated_source, status)` and ignores `applied`; an
`apply()` followed by `revert()` leaves the mutant in the same equality
class. -/
theorem claim_C10 :
    (∀ m o : Mutant, m.eqPy o = true ↔
      (m.filename = o.filename ∧ m.source = o.source ∧
       m.mutated_source = o.mutated_source ∧ m.status = o.status)) ∧
    (∀ (m o : Mutant) (a b : Bool),
      Mutant.eqPy { m with applied := a } { o with applied := b } =
        m.eqPy o) ∧
    (∀ (m : Mutant) (fs : FileSystem), m.applied = false →
      Mutant.eqPy
        (Mutant.revertFs (m.applyFs fs).2.1 (m.applyFs fs).2.2).2.1 m =
        true) := by
  refine ⟨?_, fun m o a b => rfl, ?_⟩
  · intro m o
    simp [Mutant.eqPy]
  · intro m fs h
    have hne : m.filename ++ ".bak" ≠ m.filename := append_bak_ne m.filename
    simp [Mutant.applyFs, h, Mutant.revertFs, FSet, hne, Mutant.eqPy]

/-- Witness for C10's apply-revert part at a concrete mutant. -/
theorem claim_C10_witness :
    Mutant.eqPy
      (Mutant.revertFs
        (Mutant.applyFs ⟨"h.py", "src", "mu", .UNTESTED, false⟩
          (fun _ => none)).2.1
        (Mutant.applyFs ⟨"h.py", "src", "mu", .UNTESTED, false⟩
          (fun _ => none)).2.2).2.1
      ⟨"h.py", "src", "mu", .UNTESTED, false⟩ = true :=
  claim_C10.2.2 ⟨"h.py", "src", "mu", .UNTESTED, false⟩ (fun _ => none) rfl

/-- C9: `mutation_original_pair` is partial — it returns the stripped
pair exactly when both line-set differences are non-empty; a mutant whose
mutated line duplicates a line already in the source makes one difference
empty, so element 0 is out of bounds and the lookup faults; and the
orchestrator loop reads the pair of every mutant before testing it, so a
faulting pair aborts the run. -/
theorem claim_C9 :
    (∀ m : Mutant, (m.mutation_original_pair).isSome = true ↔
      (setDiff (splitlinesKeepends m.source.data)
          (splitlinesKeepends m.mutated_source.data) ≠ [] ∧
       setDiff (splitlinesKeepends m.mutated_source.data)
          (splitlinesKeepends m.source.data) ≠ [])) ∧
    (∀ (m : Mutant) (o mu : List Char) (rest1 rest2 : List (List Char)),
      setDiff (splitlinesKeepends m.source.data)
        (splitlinesKeepends m.mutated_source.data) = o :: rest1 →
      setDiff (splitlinesKeepends m.mutated_source.data)
        (splitlinesKeepends m.source.data) = mu :: rest2 →
      m.mutation_original_pair =
        some (stripChars o, stripChars mu)) ∧
    Mutant.mutation_original_pair
      ⟨"f.py", "x = 1\ny = 2\n", "x = 1\nx = 1\n", .UNTESTED, false⟩ =
      none ∧
    (∀ (T : ℚ) (m : Mutant) (r : TestRunResult)
        (rest : List (Mutant × TestRunResult)),
      m.mutation_original_pair = none →
      run_mutation_tests_loop T ((m, r) :: rest) =
        .error "IndexError: list index out of range") ∧
    (∀ (T : ℚ) (ms : List (Mutant × TestRunResult)) (l : List Mutant),
      run_mutation_tests_loop T ms = .ok l →
      ∀ p ∈ ms, (Mutant.mutation_original_pair p.1).isSome = true) := by
  refine ⟨?_, ?_, by decide, ?_, ?_⟩
  · intro m
    rcases hO : setDiff (splitlinesKeepends m.source.data)
        (splitlinesKeepends m.mutated_source.data) with _ | ⟨o, r1⟩ <;>
      rcases hM : setDiff (splitlinesKeepends m.mutated_source.data)
          (splitlinesKeepends m.source.data) with _ | ⟨mu, r2⟩ <;>
      simp [Mutant.mutation_original_pair, hO, hM]
  · intro m o mu rest1 rest2 hO hM
    simp [Mutant.mutation_original_pair, hO, hM]
  · intro T m r rest h
    simp [run_mutation_tests_loop, h]
  · intro T ms
    induction ms with
    | nil => intro l _ p hp; simp at hp
    | cons head tail ih =>
      obtain ⟨m, r⟩ := head
      intro l hok p hp
      rcases hpair : m.mutation_original_pair with _ | pr
      · rw [run_mutation_tests_loop] at hok
        simp [hpair] at hok
      · rcases List.mem_cons.mp hp with hp1 | hp2
        · subst hp1
          simp [hpair]
        · rw [run_mutation_tests_loop] at hok
          simp only [hpair] at hok
          rcases hrec : run_mutation_tests_loop T tail with e | tl
          · rw [hrec] at hok
            simp at hok
          · exact ih tl hrec p hp2

/-- Witness for C9 at concrete mutants: a one-line rewrite yields the
stripped pair; a duplicate-line mutant faults and aborts the
orchestrator loop before any testing. -/
theorem claim_C9_witness :
    Mutant.mutation_original_pair ⟨"f.py", "a\n", "b\n", .UNTESTED, false⟩ =
      some ("a".data, "b".data) ∧
    run_mutation_tests_loop 1
      [(⟨"f.py", "x = 1\ny = 2\n", "x = 1\nx = 1\n", .UNTESTED, false⟩,
        .timeout)] = .error "IndexError: list index out of range" ∧
    (Mutant.mutation_original_pair
      (⟨"f.py", "a\n", "b\n", .UNTESTED, false⟩ : Mutant)).isSome = true :=
  ⟨(claim_C9.2.1 ⟨"f.py", "a\n", "b\n", .UNTESTED, false⟩
      "a\n".data "b\n".data [] [] (by decide) (by decide)).trans (by decide),
   claim_C9.2.2.2.1 1 ⟨"f.py", "x = 1\ny = 2\n", "x = 1\nx = 1\n",
     .UNTESTED, false⟩ .timeout [] claim_C9.2.2.1,
   (claim_C9.1 ⟨"f.py", "a\n", "b\n", .UNTESTED, false⟩).mpr
     ⟨by decide, by decide⟩⟩

end Muckup
